import Mathlib

/-!
Verification of the session/identity management subsystem of the Telescope
web portal.

The embedding follows `src/web/services/auth/identity.rs` (the canonical
aggregate draft: `RootIdentity`, `AuthenticatedIdentities`, the `Identity`
wrapper and its two `FromRequest` impls) and the error type of
`src/error.rs`.  Asynchronous effects are made explicit:

* calls to the Discord OAuth token endpoint are represented by a function
  parameter `endpoint : TokenEndpoint`, and every operation that may call it
  also returns the number of token-endpoint invocations it performed;
* the cookie side effects of the `actix_identity` inner identity
  (`remember` / `forget`) are returned as an explicit list of
  `CookieEffect`s;
* the inner identity state of a request is the `Option String` cookie that
  `ActixIdentity::identity()` would return.

The provider identity structs (`GitHubIdentity`, `DiscordIdentity`), the
Discord refresh implementation and the serde-based session codec live in
files outside the given sources; those are modelled from the spec, as
marked on each definition.
-/

namespace Telescope

/-- Modelled from the spec: the GitHub provider identity "holds an access
token" (struct `GitHubIdentity` of
`src/web/services/auth/oauth2_providers/github.rs`, not among the given
sources). -/
structure GitHubIdentity where
  access_token : String
deriving DecidableEq

/-- Modelled from the spec: the Discord provider identity "holds an access
token, a refresh token, and an expiry timestamp" (struct `DiscordIdentity`
of `src/web/services/auth/oauth2_providers/discord.rs`, not among the given
sources). -/
structure DiscordIdentity where
  access_token : String
  refresh_token : String
  expires_at : Nat
deriving DecidableEq

/-- Embedding of `TelescopeError` (src/src/error.rs).  Variants whose
payloads are foreign library types the auth subsystem never constructs nor
inspects (rendering, SMTP, GraphQL, form errors) are omitted: the claims
quantify over error values, and only `InternalServerError` and
`NotAuthenticated` are ever inspected by the session code. -/
inductive TelescopeError where
  | PageNotFound
  | ResourceNotFound (header : String) (message : String)
  | FutureCanceled
  | InternalServerError (message : String)
  | BadRequest (header : String) (message : String)
  | NotImplemented
  | IpExtractionError
  | CsrfTokenNotFound
  | CsrfTokenMismatch
  | RcosApiError (message : String)
  | GitHubApiError (message : String)
  | NotAuthenticated
deriving DecidableEq

/-- `TelescopeError::ise` (src/src/error.rs line 168): construct an
internal server error from a message. -/
def TelescopeError.ise (message : String) : TelescopeError :=
  TelescopeError.InternalServerError message

/-- Embedding of `UserAccountType` (GraphQL-generated enum referenced from
identity.rs; only the two provider variants are relevant here). -/
inductive UserAccountType where
  | GitHub
  | Discord
deriving DecidableEq

/-- `RootIdentity` (identity.rs lines 16-22): the root identity the user is
authenticated with. -/
inductive RootIdentity where
  | GitHub (gh : GitHubIdentity)
  | Discord (d : DiscordIdentity)
deriving DecidableEq

/-- `AuthenticatedIdentities` (identity.rs lines 72-81): the top level
object stored in the identity cookie. -/
structure AuthenticatedIdentities where
  root : RootIdentity
  github : Option GitHubIdentity
  discord : Option DiscordIdentity
deriving DecidableEq

/-- The Discord OAuth token endpoint client, as seen by `refresh`: it maps
the current Discord identity to either a refreshed identity or an error. -/
def TokenEndpoint : Type :=
  DiscordIdentity → Except TelescopeError DiscordIdentity

/-- Modelled from the spec: `DiscordIdentity::refresh`
(src/web/services/auth/oauth2_providers/discord.rs, not among the given
sources) "always invokes refresh unconditionally", exchanging the held
tokens via the token endpoint client.  The second component counts
token-endpoint invocations (here, exactly one). -/
def DiscordIdentity.refresh (endpoint : TokenEndpoint) (self : DiscordIdentity) :
    Except TelescopeError DiscordIdentity × Nat :=
  (endpoint self, 1)

/-- `RootIdentity::refresh` (identity.rs lines 26-33): if this is a
discord-based identity, refresh it and wrap the result; otherwise no-op. -/
def RootIdentity.refresh (endpoint : TokenEndpoint) :
    RootIdentity → Except TelescopeError RootIdentity × Nat
  | RootIdentity.Discord discord =>
    match DiscordIdentity.refresh endpoint discord with
    | (Except.ok d, n) => (Except.ok (RootIdentity.Discord d), n)
    | (Except.error e, n) => (Except.error e, n)
  | self => (Except.ok self, 0)

/-- `RootIdentity::get_user_account_type` (identity.rs lines 36-41). -/
def RootIdentity.get_user_account_type : RootIdentity → UserAccountType
  | RootIdentity.GitHub _ => UserAccountType.GitHub
  | RootIdentity.Discord _ => UserAccountType.Discord

/-- `RootIdentity::make_authenticated_cookie` (identity.rs lines 61-67):
put this root in a top level identity cookie. -/
def RootIdentity.make_authenticated_cookie (self : RootIdentity) :
    AuthenticatedIdentities :=
  { root := self, github := none, discord := none }

/-- `AuthenticatedIdentities::refresh` (identity.rs lines 86-101): refresh
the root identity first, propagating failure; then, when an additional
discord identity is present, refresh it, again propagating failure, and
store it back. -/
def AuthenticatedIdentities.refresh (endpoint : TokenEndpoint)
    (self : AuthenticatedIdentities) :
    Except TelescopeError AuthenticatedIdentities × Nat :=
  match RootIdentity.refresh endpoint self.root with
  | (Except.error e, n) => (Except.error e, n)
  | (Except.ok root, n1) =>
    match self.discord with
    | some discord_identity =>
      match DiscordIdentity.refresh endpoint discord_identity with
      | (Except.error e, n2) => (Except.error e, n1 + n2)
      | (Except.ok refreshed, n2) =>
        (Except.ok { self with root := root, discord := some refreshed }, n1 + n2)
    | none => (Except.ok { self with root := root }, n1)

/-- `AuthenticatedIdentities::get_discord` (identity.rs lines 110-118):
check the root identity first, otherwise return the child field. -/
def AuthenticatedIdentities.get_discord (self : AuthenticatedIdentities) :
    Option DiscordIdentity :=
  match self.root with
  | RootIdentity.Discord discord => some discord
  | _ => self.discord

/-- `AuthenticatedIdentities::get_github` (identity.rs lines 121-127). -/
def AuthenticatedIdentities.get_github (self : AuthenticatedIdentities) :
    Option GitHubIdentity :=
  match self.root with
  | RootIdentity.GitHub gh => some gh
  | _ => self.github

/-!
The Session Codec.  In the source the codec is `serde_json::to_string`
(inside `Identity::save`) and `serde_json::from_str` (inside
`Identity::identity`); serde and the derived impls live outside the given
sources, so the codec is modelled from the spec: a deterministic, total
`encode` and a `decode` that fails with a `DecodeError` on malformed,
truncated, or schema-mismatched input.  The concrete wire format is opaque
to the spec; the model uses a length-tagged format over the cookie's
character list, with field-by-field decoders that consume an encoding off
the front of the input and return the unconsumed tail.
-/

/-- Modelled from the spec: the error with which `decode` fails on
malformed input (`serde_json::Error` in the source, opaque here). -/
inductive DecodeError where
  | malformed
deriving DecidableEq

/-- Length tag: `n` is encoded in unary as `n` marks followed by a close
mark. -/
def encLen : Nat → List Char
  | 0 => [':']
  | n + 1 => '#' :: encLen n

/-- Consume a length tag off the front of the input. -/
def decLen : List Char → Option (Nat × List Char)
  | ':' :: rest => some (0, rest)
  | '#' :: rest =>
    match decLen rest with
    | some (n, r) => some (n + 1, r)
    | none => none
  | _ => none

/-- Encode a string as its length tag followed by its characters. -/
def encStr (s : String) : List Char :=
  encLen s.data.length ++ s.data

/-- Consume a length-tagged string off the front of the input, failing on
truncated input. -/
def decStr (l : List Char) : Option (String × List Char) :=
  match decLen l with
  | some (n, r) =>
    if n ≤ r.length then some (String.mk (r.take n), r.drop n) else none
  | none => none

/-- Encode a `GitHubIdentity` (its access token). -/
def encGitHub (g : GitHubIdentity) : List Char :=
  encStr g.access_token

/-- Consume a `GitHubIdentity` encoding off the front of the input. -/
def decGitHub (l : List Char) : Option (GitHubIdentity × List Char) :=
  match decStr l with
  | some (t, r) => some ({ access_token := t }, r)
  | none => none

/-- Encode a `DiscordIdentity` (access token, refresh token, expiry). -/
def encDiscord (d : DiscordIdentity) : List Char :=
  encStr d.access_token ++ encStr d.refresh_token ++ encLen d.expires_at

/-- Consume a `DiscordIdentity` encoding off the front of the input. -/
def decDiscord (l : List Char) : Option (DiscordIdentity × List Char) :=
  match decStr l with
  | some (a, r1) =>
    match decStr r1 with
    | some (t, r2) =>
      match decLen r2 with
      | some (e, r3) =>
        some ({ access_token := a, refresh_token := t, expires_at := e }, r3)
      | none => none
    | none => none
  | none => none

/-- Encode a `RootIdentity` with a variant tag. -/
def encRoot : RootIdentity → List Char
  | RootIdentity.GitHub g => 'G' :: encGitHub g
  | RootIdentity.Discord d => 'D' :: encDiscord d

/-- Consume a `RootIdentity` encoding off the front of the input. -/
def decRoot (l : List Char) : Option (RootIdentity × List Char) :=
  match l with
  | 'G' :: rest =>
    match decGitHub rest with
    | some (g, r) => some (RootIdentity.GitHub g, r)
    | none => none
  | 'D' :: rest =>
    match decDiscord rest with
    | some (d, r) => some (RootIdentity.Discord d, r)
    | none => none
  | _ => none

/-- Encode an optional `GitHubIdentity` with a presence tag. -/
def encOptGitHub : Option GitHubIdentity → List Char
  | none => ['N']
  | some g => 'S' :: encGitHub g

/-- Consume an optional `GitHubIdentity` encoding off the front of the
input. -/
def decOptGitHub (l : List Char) : Option (Option GitHubIdentity × List Char) :=
  match l with
  | 'N' :: rest => some (none, rest)
  | 'S' :: rest =>
    match decGitHub rest with
    | some (g, r) => some (some g, r)
    | none => none
  | _ => none

/-- Encode an optional `DiscordIdentity` with a presence tag. -/
def encOptDiscord : Option DiscordIdentity → List Char
  | none => ['N']
  | some d => 'S' :: encDiscord d

/-- Consume an optional `DiscordIdentity` encoding off the front of the
input. -/
def decOptDiscord (l : List Char) : Option (Option DiscordIdentity × List Char) :=
  match l with
  | 'N' :: rest => some (none, rest)
  | 'S' :: rest =>
    match decDiscord rest with
    | some (d, r) => some (some d, r)
    | none => none
  | _ => none

/-- Encode an `AuthenticatedIdentities` field by field. -/
def encAuth (a : AuthenticatedIdentities) : List Char :=
  encRoot a.root ++ encOptGitHub a.github ++ encOptDiscord a.discord

/-- Consume an `AuthenticatedIdentities` encoding off the front of the
input. -/
def decAuth (l : List Char) : Option (AuthenticatedIdentities × List Char) :=
  match decRoot l with
  | some (root, r1) =>
    match decOptGitHub r1 with
    | some (gh, r2) =>
      match decOptDiscord r2 with
      | some (d, r3) => some ({ root := root, github := gh, discord := d }, r3)
      | none => none
    | none => none
  | none => none

/-- Modelled from the spec: `encode` — the serialization performed in
`Identity::save` (`serde_json::to_string`), deterministic and total for
every valid `AuthenticatedIdentities` value. -/
def encode (a : AuthenticatedIdentities) : String :=
  String.mk (encAuth a)

/-- Modelled from the spec: `decode` — the deserialization performed in
`Identity::identity` (`serde_json::from_str`), failing with a
`DecodeError` on malformed input, including trailing garbage. -/
def decode (s : String) : Except DecodeError AuthenticatedIdentities :=
  match decAuth s.data with
  | some (a, []) => Except.ok a
  | _ => Except.error DecodeError.malformed

/-!
The `Identity` wrapper (identity.rs lines 132-244) and the two
`FromRequest` impls.  The inner `ActixIdentity` is modelled by the
`Option String` cookie its `identity()` method returns; its `remember` and
`forget` calls are returned as an explicit effect list.
-/

/-- Cookie side effects issued against the inner `ActixIdentity`:
`remember cookie` stores the serialized cookie on the client, `forget`
instructs the client to clear it. -/
inductive CookieEffect where
  | remember (cookie : String)
  | forget
deriving DecidableEq

/-- `Identity::forget` (identity.rs lines 187-189): delegate to the inner
identity's `forget`. -/
def Identity.forget : CookieEffect :=
  CookieEffect.forget

/-- `Identity::save` (identity.rs lines 192-199): serialize the identity
cookie (this serialization does not fail) and remember it on the inner
identity. -/
def Identity.save (identity : AuthenticatedIdentities) : CookieEffect :=
  CookieEffect.remember (encode identity)

/-- `Identity::identity` (identity.rs lines 202-232): read the inner cookie
if present, deserialize it, refresh it; on refresh success save and return
the refreshed identity; on refresh failure warn and return nothing; on
deserialization failure forget the cookie, warn and return nothing.
Returns the resulting identity, the cookie effects issued, and the number
of token-endpoint invocations. -/
def Identity.identity (endpoint : TokenEndpoint) (inner : Option String) :
    Option AuthenticatedIdentities × List CookieEffect × Nat :=
  match inner with
  | none => (none, [], 0)
  | some id =>
    match decode id with
    | Except.ok idv =>
      match AuthenticatedIdentities.refresh endpoint idv with
      | (Except.ok refreshed, n) => (some refreshed, [Identity.save refreshed], n)
      | (Except.error _, n) => (none, [], n)
    | Except.error _ => (none, [Identity.forget], 0)

/-- `impl FromRequest for Identity` (identity.rs lines 138-161): extract
the actix identity from the request, normalizing any extraction error as
an internal server error.  The transport result is either the inner cookie
state or the underlying extraction error message. -/
def Identity.from_request (transport : Except String (Option String)) :
    Except TelescopeError (Option String) :=
  match transport with
  | Except.error e =>
    Except.error (TelescopeError.ise
      ("Could not extract identity object from request. Internal error: " ++ e))
  | Except.ok inner => Except.ok inner

/-- `impl FromRequest for AuthenticatedIdentities` (identity.rs lines
163-183): extract the telescope identity, propagating errors; then read
the cookie through the state machine, turning an absent identity into
`NotAuthenticated`. -/
def AuthenticatedIdentities.from_request (endpoint : TokenEndpoint)
    (transport : Except String (Option String)) :
    Except TelescopeError AuthenticatedIdentities × List CookieEffect × Nat :=
  match Identity.from_request transport with
  | Except.error e => (Except.error e, [], 0)
  | Except.ok inner =>
    match Identity.identity endpoint inner with
    | (some idv, effects, n) => (Except.ok idv, effects, n)
    | (none, effects, n) => (Except.error TelescopeError.NotAuthenticated, effects, n)

/-!
Helper lemmas: each field decoder consumes exactly the corresponding
encoding off the front of the input and returns the tail unchanged.
-/

theorem decLen_encLen (n : Nat) (rest : List Char) :
    decLen (encLen n ++ rest) = some (n, rest) := by
  induction n with
  | zero => rfl
  | succ n ih => simp [encLen, decLen, ih]

theorem decStr_encStr (s : String) (rest : List Char) :
    decStr (encStr s ++ rest) = some (s, rest) := by
  obtain ⟨l⟩ := s
  unfold decStr encStr
  rw [List.append_assoc, decLen_encLen]
  simp

theorem decGitHub_encGitHub (g : GitHubIdentity) (rest : List Char) :
    decGitHub (encGitHub g ++ rest) = some (g, rest) := by
  unfold decGitHub encGitHub
  rw [decStr_encStr]

theorem decDiscord_encDiscord (d : DiscordIdentity) (rest : List Char) :
    decDiscord (encDiscord d ++ rest) = some (d, rest) := by
  simp [decDiscord, encDiscord, List.append_assoc, decStr_encStr, decLen_encLen]

theorem decRoot_encRoot (r : RootIdentity) (rest : List Char) :
    decRoot (encRoot r ++ rest) = some (r, rest) := by
  cases r with
  | GitHub g => simp [encRoot, decRoot, decGitHub_encGitHub]
  | Discord d => simp [encRoot, decRoot, decDiscord_encDiscord]

theorem decOptGitHub_encOptGitHub (o : Option GitHubIdentity) (rest : List Char) :
    decOptGitHub (encOptGitHub o ++ rest) = some (o, rest) := by
  cases o with
  | none => rfl
  | some g => simp [encOptGitHub, decOptGitHub, decGitHub_encGitHub]

theorem decOptDiscord_encOptDiscord (o : Option DiscordIdentity) (rest : List Char) :
    decOptDiscord (encOptDiscord o ++ rest) = some (o, rest) := by
  cases o with
  | none => rfl
  | some d => simp [encOptDiscord, decOptDiscord, decDiscord_encDiscord]

theorem decAuth_encAuth (a : AuthenticatedIdentities) (rest : List Char) :
    decAuth (encAuth a ++ rest) = some (a, rest) := by
  simp [decAuth, encAuth, List.append_assoc, decRoot_encRoot,
    decOptGitHub_encOptGitHub, decOptDiscord_encOptDiscord]

/-!
Concrete sample data used by counterexamples and witnesses.
-/

/-- Sample GitHub identity. -/
def sampleGitHub : GitHubIdentity :=
  { access_token := "gh-access" }

/-- Sample Discord identity. -/
def sampleDiscord : DiscordIdentity :=
  { access_token := "d-access", refresh_token := "d-refresh", expires_at := 3 }

/-- Second sample Discord identity, used as a refreshed value. -/
def sampleDiscord2 : DiscordIdentity :=
  { access_token := "d-access-2", refresh_token := "d-refresh-2", expires_at := 9 }

/-- Token endpoint that rejects every refresh. -/
def rejectingEndpoint : TokenEndpoint :=
  fun _ => Except.error (TelescopeError.ise "refresh rejected")

/-- Token endpoint that accepts every refresh, always answering with
`sampleDiscord2`. -/
def acceptingEndpoint : TokenEndpoint :=
  fun _ => Except.ok sampleDiscord2

/-- Sample aggregate: GitHub root, no secondary identities. -/
def sampleGitHubOnly : AuthenticatedIdentities :=
  { root := RootIdentity.GitHub sampleGitHub, github := none, discord := none }

/-- Sample aggregate: GitHub root plus a secondary Discord identity. -/
def sampleWithSecondary : AuthenticatedIdentities :=
  { root := RootIdentity.GitHub sampleGitHub, github := none,
    discord := some sampleDiscord }

/-- Sample aggregate: Discord root, no secondary identities. -/
def sampleDiscordRoot : AuthenticatedIdentities :=
  { root := RootIdentity.Discord sampleDiscord, github := none, discord := none }

/-!
Claim theorems.
-/

/-- C1 counterexample: on `sampleWithSecondary` the root (GitHub) refresh
succeeds and the secondary Discord identity is present, and the rejecting
endpoint fails its refresh — yet `AuthenticatedIdentities::refresh` does
NOT succeed with the stale secondary kept: it fails with the propagated
error, refuting the claim that a secondary-identity refresh failure is
swallowed. -/
theorem secondary_refresh_failure_not_swallowed :
    (RootIdentity.refresh rejectingEndpoint
      sampleWithSecondary.root).1 = Except.ok sampleWithSecondary.root ∧
    sampleWithSecondary.discord = some sampleDiscord ∧
    rejectingEndpoint sampleDiscord = Except.error (TelescopeError.ise "refresh rejected") ∧
    AuthenticatedIdentities.refresh rejectingEndpoint sampleWithSecondary =
      (Except.error (TelescopeError.ise "refresh rejected"), 1) :=
  ⟨rfl, rfl, rfl, rfl⟩

/-- C1 (amended): when the root refresh succeeds but the secondary Discord
identity is present and its refresh fails with an error, the whole
aggregate refresh fails with that propagated error (the failure is NOT
swallowed, and the stale secondary is not kept). -/
theorem secondary_refresh_failure_propagates
    (endpoint : TokenEndpoint) (a : AuthenticatedIdentities) (r : RootIdentity)
    (n : Nat) (d : DiscordIdentity) (e : TelescopeError)
    (hroot : RootIdentity.refresh endpoint a.root = (Except.ok r, n))
    (hd : a.discord = some d)
    (he : endpoint d = Except.error e) :
    AuthenticatedIdentities.refresh endpoint a = (Except.error e, n + 1) := by
  simp [AuthenticatedIdentities.refresh, hroot, hd, DiscordIdentity.refresh, he]

/-- C1 (amended) witness at `sampleWithSecondary` with the rejecting
endpoint. -/
theorem secondary_refresh_failure_propagates_witness :
    RootIdentity.refresh rejectingEndpoint sampleWithSecondary.root =
      (Except.ok (RootIdentity.GitHub sampleGitHub), 0) ∧
    sampleWithSecondary.discord = some sampleDiscord ∧
    rejectingEndpoint sampleDiscord = Except.error (TelescopeError.ise "refresh rejected") ∧
    AuthenticatedIdentities.refresh rejectingEndpoint sampleWithSecondary =
      (Except.error (TelescopeError.ise "refresh rejected"), 0 + 1) :=
  ⟨rfl, rfl, rfl,
    secondary_refresh_failure_propagates rejectingEndpoint sampleWithSecondary
      (RootIdentity.GitHub sampleGitHub) 0 sampleDiscord
      (TelescopeError.ise "refresh rejected") rfl rfl rfl⟩

/-- C2: `AuthenticatedIdentities::refresh` refreshes the root first; when
the root refresh fails with an error, the aggregate refresh fails with
that same propagated error, and the token-endpoint invocation count is
exactly the root refresh's own — the secondary Discord identity is not
refreshed. -/
theorem root_refresh_failure_propagates
    (endpoint : TokenEndpoint) (a : AuthenticatedIdentities)
    (e : TelescopeError) (n : Nat)
    (hroot : RootIdentity.refresh endpoint a.root = (Except.error e, n)) :
    AuthenticatedIdentities.refresh endpoint a = (Except.error e, n) := by
  simp [AuthenticatedIdentities.refresh, hroot]

/-- C2 witness: Discord root rejected by the endpoint, with a secondary
Discord identity present; the aggregate fails with the root's error after
exactly the root's single endpoint call. -/
theorem root_refresh_failure_propagates_witness :
    RootIdentity.refresh rejectingEndpoint
      (AuthenticatedIdentities.mk (RootIdentity.Discord sampleDiscord) none
        (some sampleDiscord2)).root =
      (Except.error (TelescopeError.ise "refresh rejected"), 1) ∧
    AuthenticatedIdentities.refresh rejectingEndpoint
      (AuthenticatedIdentities.mk (RootIdentity.Discord sampleDiscord) none
        (some sampleDiscord2)) =
      (Except.error (TelescopeError.ise "refresh rejected"), 1) :=
  ⟨rfl,
    root_refresh_failure_propagates rejectingEndpoint
      (AuthenticatedIdentities.mk (RootIdentity.Discord sampleDiscord) none
        (some sampleDiscord2))
      (TelescopeError.ise "refresh rejected") 1 rfl⟩

/-- C3: when the cookie decodes successfully and the refresh succeeds,
`Identity::identity` re-encodes the refreshed identity, writes it back to
the client cookie (a single `remember` of the re-encoding, which is
exactly `Identity::save`), and returns the refreshed identity. -/
theorem identity_read_refresh_success_saves
    (endpoint : TokenEndpoint) (cookie : String)
    (x refreshed : AuthenticatedIdentities) (n : Nat)
    (hdec : decode cookie = Except.ok x)
    (href : AuthenticatedIdentities.refresh endpoint x = (Except.ok refreshed, n)) :
    Identity.identity endpoint (some cookie) =
      (some refreshed, [CookieEffect.remember (encode refreshed)], n) := by
  simp [Identity.identity, hdec, href, Identity.save]

/-- C3 witness: a GitHub-only cookie round-trips through the state machine
and is written back. -/
theorem identity_read_refresh_success_saves_witness :
    decode (encode sampleGitHubOnly) = Except.ok sampleGitHubOnly ∧
    Identity.identity rejectingEndpoint (some (encode sampleGitHubOnly)) =
      (some sampleGitHubOnly, [CookieEffect.remember (encode sampleGitHubOnly)], 0) :=
  ⟨rfl,
    identity_read_refresh_success_saves rejectingEndpoint (encode sampleGitHubOnly)
      sampleGitHubOnly sampleGitHubOnly 0 rfl rfl⟩

/-- C4: when the cookie decodes successfully but the refresh fails,
`Identity::identity` returns no identity and issues no cookie effect at
all — neither `forget` nor `save`; the client cookie is left untouched. -/
theorem identity_read_refresh_failure_leaves_cookie
    (endpoint : TokenEndpoint) (cookie : String)
    (x : AuthenticatedIdentities) (e : TelescopeError) (n : Nat)
    (hdec : decode cookie = Except.ok x)
    (href : AuthenticatedIdentities.refresh endpoint x = (Except.error e, n)) :
    Identity.identity endpoint (some cookie) = (none, [], n) := by
  simp [Identity.identity, hdec, href]

/-- C4 witness: a Discord-root cookie whose refresh the endpoint rejects is
read as no identity, with an empty effect list. -/
theorem identity_read_refresh_failure_leaves_cookie_witness :
    decode (encode sampleDiscordRoot) = Except.ok sampleDiscordRoot ∧
    Identity.identity rejectingEndpoint (some (encode sampleDiscordRoot)) =
      (none, [], 1) :=
  ⟨rfl,
    identity_read_refresh_failure_leaves_cookie rejectingEndpoint
      (encode sampleDiscordRoot) sampleDiscordRoot
      (TelescopeError.ise "refresh rejected") 1 rfl rfl⟩

/-- C5: the string "not-a-valid-session" fails to decode, and on every
cookie string that fails to decode `Identity::identity` issues exactly the
`forget` side effect (instructing the client to clear the cookie) and
returns no identity. -/
theorem identity_read_decode_failure_forgets :
    decode "not-a-valid-session" = Except.error DecodeError.malformed ∧
    ∀ (endpoint : TokenEndpoint) (cookie : String) (e : DecodeError),
      decode cookie = Except.error e →
      Identity.identity endpoint (some cookie) = (none, [CookieEffect.forget], 0) := by
  refine ⟨rfl, ?_⟩
  intro endpoint cookie e hdec
  simp [Identity.identity, hdec, Identity.forget]

/-- C5 witness at the cookie string "not-a-valid-session". -/
theorem identity_read_decode_failure_forgets_witness :
    Identity.identity rejectingEndpoint (some "not-a-valid-session") =
      (none, [CookieEffect.forget], 0) :=
  identity_read_decode_failure_forgets.2 rejectingEndpoint "not-a-valid-session"
    DecodeError.malformed rfl

/-- C6: the session codec round-trips — for every valid
`AuthenticatedIdentities` value, decoding the string produced by encoding
it yields the value back. -/
theorem session_codec_roundtrip (x : AuthenticatedIdentities) :
    decode (encode x) = Except.ok x := by
  have h := decAuth_encAuth x []
  rw [List.append_nil] at h
  simp [decode, encode, h]

/-- C7: refreshing an aggregate whose root is a GitHub identity and whose
secondary Discord slot is absent always succeeds, returns the aggregate
unchanged, and performs zero token-endpoint invocations (the count is the
number of calls to the endpoint's refresh operation). -/
theorem github_only_refresh_noop
    (endpoint : TokenEndpoint) (a : AuthenticatedIdentities) (g : GitHubIdentity)
    (hroot : a.root = RootIdentity.GitHub g) (hd : a.discord = none) :
    AuthenticatedIdentities.refresh endpoint a = (Except.ok a, 0) := by
  obtain ⟨root, gh, d⟩ := a
  simp only at hroot hd
  subst hroot hd
  simp [AuthenticatedIdentities.refresh, RootIdentity.refresh]

/-- C7 witness: a GitHub-only aggregate is a fixed point of refresh even
under an endpoint that rejects every refresh — the endpoint is never
consulted. -/
theorem github_only_refresh_noop_witness :
    AuthenticatedIdentities.refresh rejectingEndpoint sampleGitHubOnly =
      (Except.ok sampleGitHubOnly, 0) :=
  github_only_refresh_noop rejectingEndpoint sampleGitHubOnly sampleGitHub rfl rfl

/-- C8: `get_github` and `get_discord` return the stored identity of the
requested provider with root precedence, and `none` when neither is
present: a GitHub root wins regardless of the secondary slot; with a
Discord root, `get_github` reads the secondary GitHub slot; symmetrically
for `get_discord`.  No error path exists (the result is a plain option). -/
theorem get_provider_precedence :
    (∀ (g : GitHubIdentity) (gh : Option GitHubIdentity) (d : Option DiscordIdentity),
      (AuthenticatedIdentities.mk (RootIdentity.GitHub g) gh d).get_github = some g) ∧
    (∀ (dd : DiscordIdentity) (x : GitHubIdentity) (d : Option DiscordIdentity),
      (AuthenticatedIdentities.mk (RootIdentity.Discord dd) (some x) d).get_github =
        some x) ∧
    (∀ (dd : DiscordIdentity) (d : Option DiscordIdentity),
      (AuthenticatedIdentities.mk (RootIdentity.Discord dd) none d).get_github =
        none) ∧
    (∀ (dd : DiscordIdentity) (gh : Option GitHubIdentity) (d : Option DiscordIdentity),
      (AuthenticatedIdentities.mk (RootIdentity.Discord dd) gh d).get_discord =
        some dd) ∧
    (∀ (g : GitHubIdentity) (gh : Option GitHubIdentity) (x : DiscordIdentity),
      (AuthenticatedIdentities.mk (RootIdentity.GitHub g) gh (some x)).get_discord =
        some x) ∧
    (∀ (g : GitHubIdentity) (gh : Option GitHubIdentity),
      (AuthenticatedIdentities.mk (RootIdentity.GitHub g) gh none).get_discord =
        none) := by
  refine ⟨?_, ?_, ?_, ?_, ?_, ?_⟩ <;> intros <;> rfl

/-- C9: the login-requiring extractor yields the identity whenever the
identity-read state machine produces one, fails with `NotAuthenticated`
when it produces none, and fails with an internal-server-error kind —
distinct from `NotAuthenticated` — when the transport-level identity
primitive cannot be read from the request. -/
theorem extractor_error_kinds :
    (∀ (endpoint : TokenEndpoint) (inner : Option String)
        (x : AuthenticatedIdentities) (effects : List CookieEffect) (n : Nat),
      Identity.identity endpoint inner = (some x, effects, n) →
      AuthenticatedIdentities.from_request endpoint (Except.ok inner) =
        (Except.ok x, effects, n)) ∧
    (∀ (endpoint : TokenEndpoint) (inner : Option String)
        (effects : List CookieEffect) (n : Nat),
      Identity.identity endpoint inner = (none, effects, n) →
      AuthenticatedIdentities.from_request endpoint (Except.ok inner) =
        (Except.error TelescopeError.NotAuthenticated, effects, n)) ∧
    (∀ (endpoint : TokenEndpoint) (msg : String),
      AuthenticatedIdentities.from_request endpoint (Except.error msg) =
        (Except.error (TelescopeError.ise
          ("Could not extract identity object from request. Internal error: " ++ msg)),
          [], 0)) ∧
    (∀ (msg : String), TelescopeError.ise msg ≠ TelescopeError.NotAuthenticated) := by
  refine ⟨?_, ?_, ?_, ?_⟩
  · intro endpoint inner x effects n h
    simp [AuthenticatedIdentities.from_request, Identity.from_request, h]
  · intro endpoint inner effects n h
    simp [AuthenticatedIdentities.from_request, Identity.from_request, h]
  · intro endpoint msg
    rfl
  · intro msg
    simp [TelescopeError.ise]

/-- C9 witness: with no cookie present the extractor fails with
`NotAuthenticated`; with an unreadable transport the extractor fails with
the internal-server-error kind. -/
theorem extractor_error_kinds_witness :
    AuthenticatedIdentities.from_request rejectingEndpoint (Except.ok none) =
      (Except.error TelescopeError.NotAuthenticated, [], 0) ∧
    AuthenticatedIdentities.from_request rejectingEndpoint (Except.error "boom") =
      (Except.error (TelescopeError.ise
        ("Could not extract identity object from request. Internal error: " ++ "boom")),
        [], 0) :=
  ⟨extractor_error_kinds.2.1 rejectingEndpoint none [] 0 rfl,
    extractor_error_kinds.2.2.1 rejectingEndpoint "boom"⟩

/-- The spec invariant on aggregates: the root (always present, by the
shape of the structure) must not duplicate a populated secondary slot of
the same provider. -/
def AuthenticatedIdentities.rootNotDuplicated (a : AuthenticatedIdentities) : Prop :=
  match a.root with
  | RootIdentity.GitHub _ => a.github = none
  | RootIdentity.Discord _ => a.discord = none

/-- C10: `make_authenticated_cookie` constructs an aggregate with the given
root and both secondary slots absent (so the invariant holds), and a
successful `refresh` never changes the root's provider variant, never
touches the secondary GitHub slot, and never changes whether the secondary
Discord slot is populated — hence it preserves the invariant. -/
theorem session_invariant_preserved :
    (∀ (r : RootIdentity),
      r.make_authenticated_cookie.root = r ∧
      r.make_authenticated_cookie.github = none ∧
      r.make_authenticated_cookie.discord = none ∧
      r.make_authenticated_cookie.rootNotDuplicated) ∧
    (∀ (endpoint : TokenEndpoint) (a b : AuthenticatedIdentities) (n : Nat),
      AuthenticatedIdentities.refresh endpoint a = (Except.ok b, n) →
      b.root.get_user_account_type = a.root.get_user_account_type ∧
      b.github = a.github ∧
      b.discord.isSome = a.discord.isSome ∧
      (a.rootNotDuplicated → b.rootNotDuplicated)) := by
  constructor
  · intro r
    refine ⟨rfl, rfl, rfl, ?_⟩
    cases r <;> simp [RootIdentity.make_authenticated_cookie,
      AuthenticatedIdentities.rootNotDuplicated]
  · intro endpoint a b n h
    obtain ⟨root, gh, d⟩ := a
    cases root with
    | GitHub g =>
      cases d with
      | none =>
        simp [AuthenticatedIdentities.refresh, RootIdentity.refresh] at h
        obtain ⟨hb, -⟩ := h
        subst hb
        simp [AuthenticatedIdentities.rootNotDuplicated]
      | some dd =>
        cases he : endpoint dd with
        | ok d2 =>
          simp [AuthenticatedIdentities.refresh, RootIdentity.refresh,
            DiscordIdentity.refresh, he] at h
          obtain ⟨hb, -⟩ := h
          subst hb
          simp [AuthenticatedIdentities.rootNotDuplicated,
            RootIdentity.get_user_account_type]
        | error e =>
          simp [AuthenticatedIdentities.refresh, RootIdentity.refresh,
            DiscordIdentity.refresh, he] at h
    | Discord dr =>
      cases he : endpoint dr with
      | ok r2 =>
        cases d with
        | none =>
          simp [AuthenticatedIdentities.refresh, RootIdentity.refresh,
            DiscordIdentity.refresh, he] at h
          obtain ⟨hb, -⟩ := h
          subst hb
          simp [AuthenticatedIdentities.rootNotDuplicated,
            RootIdentity.get_user_account_type]
        | some dd =>
          cases he2 : endpoint dd with
          | ok d2 =>
            simp [AuthenticatedIdentities.refresh, RootIdentity.refresh,
              DiscordIdentity.refresh, he, he2] at h
            obtain ⟨hb, -⟩ := h
            subst hb
            simp [AuthenticatedIdentities.rootNotDuplicated,
              RootIdentity.get_user_account_type]
          | error e =>
            simp [AuthenticatedIdentities.refresh, RootIdentity.refresh,
              DiscordIdentity.refresh, he, he2] at h
      | error e =>
        simp [AuthenticatedIdentities.refresh, RootIdentity.refresh,
          DiscordIdentity.refresh, he] at h

/-- C10 witness: a successful refresh of a Discord-root aggregate with a
populated secondary GitHub slot keeps the provider variant, the GitHub
slot, the Discord slot population, and the invariant. -/
theorem session_invariant_preserved_witness :
    AuthenticatedIdentities.refresh acceptingEndpoint
      (AuthenticatedIdentities.mk (RootIdentity.Discord sampleDiscord)
        (some sampleGitHub) none) =
      (Except.ok (AuthenticatedIdentities.mk (RootIdentity.Discord sampleDiscord2)
        (some sampleGitHub) none), 1) ∧
    ((AuthenticatedIdentities.mk (RootIdentity.Discord sampleDiscord2)
        (some sampleGitHub) none).root.get_user_account_type =
      (AuthenticatedIdentities.mk (RootIdentity.Discord sampleDiscord)
        (some sampleGitHub) none).root.get_user_account_type ∧
      (AuthenticatedIdentities.mk (RootIdentity.Discord sampleDiscord2)
        (some sampleGitHub) none).github =
      (AuthenticatedIdentities.mk (RootIdentity.Discord sampleDiscord)
        (some sampleGitHub) none).github ∧
      (AuthenticatedIdentities.mk (RootIdentity.Discord sampleDiscord2)
        (some sampleGitHub) none).discord.isSome =
      (AuthenticatedIdentities.mk (RootIdentity.Discord sampleDiscord)
        (some sampleGitHub) none).discord.isSome ∧
      ((AuthenticatedIdentities.mk (RootIdentity.Discord sampleDiscord)
          (some sampleGitHub) none).rootNotDuplicated →
        (AuthenticatedIdentities.mk (RootIdentity.Discord sampleDiscord2)
          (some sampleGitHub) none).rootNotDuplicated)) :=
  ⟨rfl,
    session_invariant_preserved.2 acceptingEndpoint
      (AuthenticatedIdentities.mk (RootIdentity.Discord sampleDiscord)
        (some sampleGitHub) none)
      (AuthenticatedIdentities.mk (RootIdentity.Discord sampleDiscord2)
        (some sampleGitHub) none) 1 rfl⟩

end Telescope
